import Mathlib

/-
Shallow embedding of the schema-aware payload synthesis engine of the
go-omniinterface package (src/omniinterface.go).

Modelling conventions:
* JSON values decoded by encoding/json into Go interface values are the
  inductive type JVal; JSON numbers always decode to float64, modelled as
  exact rationals.
* Go interface values supplied in Request.ColumnData are GoVal: the dynamic
  shapes the source inspects via reflect (string, int64, float64, int), the
  untyped nil interface, and a catch-all carrying the reflect type name for
  every other shape.
* A Go runtime panic (failed type assertion, method call on a nil
  interface) is an explicit crash outcome of each modelled function.
* The filesystem side effects are explicit state passing: SysState holds
  whether the cache directory exists and the cache files keyed by
  "<database>.<table>.json".  A cache file is either parsed (its JSON
  object content) or unreadable (exists, but a read or JSON parse of it
  fails; json.Unmarshal then leaves the nil map, modelled as the empty
  association list, because the source ignores both error returns).
* The single remote catalog call made on a cache miss is a parameter of
  type Except String (List (String x JVal)): a transport error from
  client.Do, or the response body already decoded into a JSON object (an
  undecodable body is the empty object, since the Unmarshal error is
  ignored).
Error message strings reproduce the source literals; \x27 encodes the
apostrophe in them.
-/

namespace OmniInterface

/-- JSON values as decoded into Go interface values by encoding/json. -/
inductive JVal where
  | null : JVal
  | bool : Bool → JVal
  | num : ℚ → JVal
  | str : String → JVal
  | arr : List JVal → JVal
  | obj : List (String × JVal) → JVal

/-- Lookup in a decoded JSON object (Go map indexing, absent key ↦ none). -/
def lookupJ : List (String × JVal) → String → Option JVal
  | [], _ => none
  | (k, v) :: rest, key => if k = key then some v else lookupJ rest key

/-- Go map assignment m[k] = v on the association-list model. -/
def setJ : List (String × JVal) → String → JVal → List (String × JVal)
  | [], key, v => [(key, v)]
  | (k, w) :: rest, key, v =>
    if k = key then (key, v) :: rest else (k, w) :: setJ rest key v

/-- Dynamic shapes of Go interface values supplied in Request.ColumnData.
other carries the reflect.TypeOf(v).String() name of any shape that is not
one of the four the source switches on; nil is the untyped nil interface
(which has no reflect type). -/
inductive GoVal where
  | str : String → GoVal
  | int64 : Int → GoVal
  | float64 : ℚ → GoVal
  | int : Int → GoVal
  | nil : GoVal
  | other : String → GoVal

/-- Go map assignment on a row under construction. -/
def setG : List (String × GoVal) → String → GoVal → List (String × GoVal)
  | [], key, v => [(key, v)]
  | (k, w) :: rest, key, v =>
    if k = key then (key, v) :: rest else (k, w) :: setG rest key v

/-- Content of a schema cache file: either its decoded JSON object, or a
file that exists but whose read or JSON parse fails. -/
inductive CacheContent where
  | parsed : List (String × JVal) → CacheContent
  | unreadable : CacheContent

/-- Filesystem state seen by the engine: the cache directory flag and the
cache files (name ↦ content). -/
structure SysState where
  dirExists : Bool
  cache : List (String × CacheContent)

/-- Lookup of a cache file by name (os.Stat / ioutil.ReadFile target). -/
def lookupC : List (String × CacheContent) → String → Option CacheContent
  | [], _ => none
  | (k, v) :: rest, key => if k = key then some v else lookupC rest key

/-- ioutil.WriteFile of a cache file. -/
def setC : List (String × CacheContent) → String → CacheContent →
    List (String × CacheContent)
  | [], key, v => [(key, v)]
  | (k, w) :: rest, key, v =>
    if k = key then (key, v) :: rest else (k, w) :: setC rest key v

/-- Helper for goSplit over the character list. -/
def goSplitAux : List Char → List (List Char)
  | [] => [[]]
  | c :: rest =>
    let r := goSplitAux rest
    if c = '/' then [] :: r
    else
      match r with
      | h :: t => (c :: h) :: t
      | [] => [[c]]

/-- strings.Split(s, "/") of the source. -/
def goSplit (s : String) : List String :=
  (goSplitAux s.data).map (fun l => String.mk l)

/-- Helper accumulating the decimal digits for goAtoi. -/
def digitsToNatAux : List Char → Nat → Option Nat
  | [], acc => some acc
  | c :: rest, acc =>
    if c.isDigit then digitsToNatAux rest (acc * 10 + (c.toNat - 48)) else none

/-- Nonempty all-decimal-digit run, as required by strconv.ParseInt. -/
def digitsToNat : List Char → Option Nat
  | [] => none
  | ds => digitsToNatAux ds 0

/-- strconv.Atoi: optional single sign, then a nonempty run of decimal
digits, value within the 64-bit signed range; none models a non-nil error
return. -/
def goAtoi (s : String) : Option Int :=
  match s.data with
  | [] => none
  | c :: rest =>
    let signedDigits : Bool × List Char :=
      if c = '-' then (true, rest)
      else if c = '+' then (false, rest)
      else (false, c :: rest)
    match digitsToNat signedDigits.2 with
    | none => none
    | some n =>
      let v : Int := if signedDigits.1 then -(n : Int) else (n : Int)
      if v < -(2 ^ 63) ∨ 2 ^ 63 - 1 < v then none else some v

/-- Go conversion int(f) for a float64 value: truncation toward zero. -/
def truncRat (q : ℚ) : Int :=
  if 0 ≤ q.num then q.num / (q.den : Int) else -((-q.num) / (q.den : Int))

/-- The switch over the numeric catalog DataType code in
getPayloadStructure: 1 ↦ "utc", 2 and 10 ↦ "string", default "integer".
The code arrives as a decoded JSON number (float64). -/
def typeCodeTag (dt : ℚ) : String :=
  if dt = 1 then "utc"
  else if dt = 2 then "string"
  else if dt = 10 then "string"
  else "integer"

/-- Outcome of generateRetval: a Result, an error, or a runtime panic from
a failed type assertion. -/
inductive RetOut where
  | rvok : List JVal → RetOut
  | rverr : String → RetOut
  | rvcrash : RetOut

/-- generateRetval of the source: unwrap the remote response envelope.
Each Go type assertion that can fail is a crash branch. -/
def generateRetval (res : List (String × JVal)) : RetOut :=
  match lookupJ res "exception" with
  | some e =>
    match e with
    | JVal.obj fields =>
      match lookupJ fields "message" with
      | some (JVal.str m) => RetOut.rverr ("OMNIbus: " ++ m)
      | _ => RetOut.rvcrash
    | _ => RetOut.rvcrash
  | none =>
    match lookupJ res "rowset" with
    | some rs =>
      match rs with
      | JVal.obj fields =>
        match lookupJ fields "rows" with
        | none => RetOut.rvok []
        | some r =>
          match r with
          | JVal.arr xs => RetOut.rvok xs
          | _ => RetOut.rvcrash
      | _ => RetOut.rvcrash
    | none => RetOut.rvok []

/-- The loop of getPayloadStructure over the catalog rows: each row must be
an object with a float64 DataType and a string ColumnName (else the type
assertions panic, modelled as none); its tag is written into the types map
(which starts as the whole decoded response body, as in the source). -/
def applyCatalogRows (types : List (String × JVal)) :
    List JVal → Option (List (String × JVal))
  | [] => some types
  | v :: rest =>
    match v with
    | JVal.obj fields =>
      match lookupJ fields "DataType", lookupJ fields "ColumnName" with
      | some (JVal.num dt), some (JVal.str cn) =>
        applyCatalogRows (setJ types cn (JVal.str (typeCodeTag dt))) rest
      | _, _ => none
    | _ => none

/-- createCacheDir of the source: ensure the cache directory exists;
mkdirOk models whether os.MkdirAll would succeed. -/
def createCacheDir (mkdirOk : Bool) (st : SysState) : Except String SysState :=
  if st.dirExists then Except.ok st
  else if mkdirOk then Except.ok { st with dirExists := true }
  else Except.error "Couldn\x27t create payload structure cache directory"

/-- Outcome of getPayloadStructure. -/
inductive GPSRes where
  | sok : GPSRes
  | serr : String → GPSRes
  | scrash : GPSRes

/-- getPayloadStructure of the source: ensure the cache directory, validate
the two-segment path, and if (and only if) no cache file exists for the
table, fetch the catalog, tag the columns and write the file.  Existence
of the file is the only cache check performed. -/
def getPayloadStructure (mkdirOk : Bool)
    (remote : Except String (List (String × JVal))) (st : SysState)
    (dbpath : String) : GPSRes × SysState :=
  match createCacheDir mkdirOk st with
  | Except.error e => (GPSRes.serr e, st)
  | Except.ok st1 =>
    match goSplit dbpath with
    | [db, table] =>
      let fname := db ++ "." ++ table ++ ".json"
      match lookupC st1.cache fname with
      | some _ => (GPSRes.sok, st1)
      | none =>
        match remote with
        | Except.error e => (GPSRes.serr e, st1)
        | Except.ok body =>
          match generateRetval body with
          | RetOut.rvcrash => (GPSRes.scrash, st1)
          | RetOut.rverr e => (GPSRes.serr e, st1)
          | RetOut.rvok res =>
            match applyCatalogRows body res with
            | none => (GPSRes.scrash, st1)
            | some types2 =>
              (GPSRes.sok,
                { st1 with
                  cache := setC st1.cache fname (CacheContent.parsed types2) })
    | _ => (GPSRes.serr "DBPath is not a path: Format db/table", st1)

/-- One coldesc entry of the synthesized payload. -/
structure ColDesc where
  name : String
  typ : JVal

/-- The rowset payload: coldesc entries and the rows (the source always
synthesizes exactly one row). -/
structure RowSet where
  coldesc : List ColDesc
  rows : List (List (String × GoVal))

/-- Outcome of coercing one column value. -/
inductive CoerceOut where
  | cok : GoVal → CoerceOut
  | cerr : String → CoerceOut
  | crash : CoerceOut

/-- The per-column value handling of generatePayload: for a declared type
equal (as a Go interface comparison) to "integer" or "utc", switch on
reflect.TypeOf(v).String(); the nil interface makes that call panic.  Any
other declared type stores the value unchanged. -/
def coerce (k : String) (t : JVal) (v : GoVal) : CoerceOut :=
  match t with
  | JVal.str tag =>
    if tag = "integer" ∨ tag = "utc" then
      match v with
      | GoVal.str s =>
        match goAtoi s with
        | some num => CoerceOut.cok (GoVal.int num)
        | none =>
          CoerceOut.cerr
            ("Couldn\x27t convert column value to integer: " ++ s ++ " (" ++
              tag ++ ")")
      | GoVal.int64 n => CoerceOut.cok (GoVal.int64 n)
      | GoVal.float64 q => CoerceOut.cok (GoVal.int (truncRat q))
      | GoVal.int n => CoerceOut.cok (GoVal.int n)
      | GoVal.nil => CoerceOut.crash
      | GoVal.other tn =>
        CoerceOut.cerr
          ("Couldn\x27t convert given parameter: " ++ k ++
            " which is of type " ++ tn)
    else CoerceOut.cok v
  | _ => CoerceOut.cok v

/-- Outcome of the column-processing loop of generatePayload. -/
inductive PCOut where
  | pok : List ColDesc → List (String × GoVal) → PCOut
  | perr : String → PCOut
  | pcrash : PCOut

/-- The loop of generatePayload over ColumnData: reject a column whose
types entry is absent or JSON null (Go: types[k] == nil), emit its coldesc
entry, coerce its value into the single row. -/
def processColumnsAux (types : List (String × JVal)) (cds : List ColDesc)
    (row : List (String × GoVal)) : List (String × GoVal) → PCOut
  | [] => PCOut.pok cds row
  | (k, v) :: rest =>
    match lookupJ types k with
    | none => PCOut.perr ("Column not found: " ++ k)
    | some JVal.null => PCOut.perr ("Column not found: " ++ k)
    | some t =>
      match coerce k t v with
      | CoerceOut.cok w =>
        processColumnsAux types (cds ++ [{ name := k, typ := t }])
          (setG row k w) rest
      | CoerceOut.cerr e => PCOut.perr e
      | CoerceOut.crash => PCOut.pcrash

/-- Column processing started from the empty payload. -/
def processColumns (types : List (String × JVal))
    (coldata : List (String × GoVal)) : PCOut :=
  processColumnsAux types [] [] coldata

/-- Outcome of generatePayload. -/
inductive GPRes where
  | rok : RowSet → GPRes
  | rerr : String → GPRes
  | rcrash : GPRes

/-- Assemble the rowset from the processed columns. -/
def buildRowSet (types : List (String × JVal))
    (coldata : List (String × GoVal)) : GPRes :=
  match processColumns types coldata with
  | PCOut.pok cds row => GPRes.rok { coldesc := cds, rows := [row] }
  | PCOut.perr e => GPRes.rerr e
  | PCOut.pcrash => GPRes.rcrash

/-- Reading the cache file back in generatePayload: both the ReadFile and
the Unmarshal error are ignored, so an unreadable or absent file leaves
the nil types map. -/
def readCacheTypes (cache : List (String × CacheContent)) (fname : String) :
    List (String × JVal) :=
  match lookupC cache fname with
  | some (CacheContent.parsed ts) => ts
  | some CacheContent.unreadable => []
  | none => []

/-- generatePayload of the source: ensure the schema structure file via
getPayloadStructure, read it back, and synthesize the payload from
ColumnData.  The second split is modelled with an index-panic branch that
is unreachable after a successful getPayloadStructure. -/
def generatePayload (mkdirOk : Bool)
    (remote : Except String (List (String × JVal))) (st : SysState)
    (dbpath : String) (coldata : List (String × GoVal)) : GPRes × SysState :=
  match getPayloadStructure mkdirOk remote st dbpath with
  | (GPSRes.serr e, st1) => (GPRes.rerr e, st1)
  | (GPSRes.scrash, st1) => (GPRes.rcrash, st1)
  | (GPSRes.sok, st1) =>
    match goSplit dbpath with
    | [db, table] =>
      (buildRowSet (readCacheTypes st1.cache (db ++ "." ++ table ++ ".json"))
        coldata, st1)
    | _ => (GPRes.rcrash, st1)

/-
Helper lemmas about the embedding, shared by the claim theorems below.
-/

/-- Lookup in a row under construction (Go map indexing). -/
def lookupG : List (String × GoVal) → String → Option GoVal
  | [], _ => none
  | (k, v) :: rest, key => if k = key then some v else lookupG rest key

/-- A key just assigned by setG reads back as the assigned value. -/
lemma lookupG_setG_self (m : List (String × GoVal)) (k : String) (v : GoVal) :
    lookupG (setG m k v) k = some v := by
  induction m with
  | nil => simp [setG, lookupG]
  | cons p rest ih =>
    obtain ⟨a, b⟩ := p
    by_cases h : a = k
    · subst h; simp [setG, lookupG]
    · simp [setG, lookupG, h, ih]

/-- setG of another key does not change a lookup. -/
lemma lookupG_setG_ne (m : List (String × GoVal)) (x k : String) (v : GoVal)
    (hne : x ≠ k) : lookupG (setG m k v) x = lookupG m x := by
  induction m with
  | nil => simp [setG, lookupG, Ne.symm hne]
  | cons p rest ih =>
    obtain ⟨a, b⟩ := p
    by_cases h : a = k
    · subst h; simp [setG, lookupG, Ne.symm hne]
    · simp [setG, lookupG, h, ih]

/-- setC of a different file name preserves lookupC. -/
lemma lookupC_setC_ne (m : List (String × CacheContent)) (x k : String)
    (v : CacheContent) (hne : x ≠ k) :
    lookupC (setC m k v) x = lookupC m x := by
  induction m with
  | nil => simp [setC, lookupC, Ne.symm hne]
  | cons p rest ih =>
    obtain ⟨a, b⟩ := p
    by_cases h : a = k
    · subst h; simp [setC, lookupC, Ne.symm hne]
    · simp [setC, lookupC, h, ih]

/-- Unfolding of the column loop at an absent column. -/
lemma pca_cons_none (types : List (String × JVal)) (cds : List ColDesc)
    (row : List (String × GoVal)) (k : String) (v : GoVal)
    (rest : List (String × GoVal)) (hl : lookupJ types k = none) :
    processColumnsAux types cds row ((k, v) :: rest) =
      PCOut.perr ("Column not found: " ++ k) := by
  simp [processColumnsAux, hl]

/-- Unfolding of the column loop at a JSON-null types entry (also
Go-nil). -/
lemma pca_cons_null (types : List (String × JVal)) (cds : List ColDesc)
    (row : List (String × GoVal)) (k : String) (v : GoVal)
    (rest : List (String × GoVal)) (hl : lookupJ types k = some JVal.null) :
    processColumnsAux types cds row ((k, v) :: rest) =
      PCOut.perr ("Column not found: " ++ k) := by
  simp [processColumnsAux, hl]

/-- Unfolding of the column loop at a present, non-null types entry. -/
lemma pca_cons_some (types : List (String × JVal)) (cds : List ColDesc)
    (row : List (String × GoVal)) (k : String) (v : GoVal)
    (rest : List (String × GoVal)) (t : JVal)
    (hl : lookupJ types k = some t) (ht : t ≠ JVal.null) :
    processColumnsAux types cds row ((k, v) :: rest) =
      match coerce k t v with
      | CoerceOut.cok w =>
        processColumnsAux types (cds ++ [{ name := k, typ := t }])
          (setG row k w) rest
      | CoerceOut.cerr e => PCOut.perr e
      | CoerceOut.crash => PCOut.pcrash := by
  cases t with
  | null => exact absurd rfl ht
  | bool b => simp [processColumnsAux, hl]
  | num q => simp [processColumnsAux, hl]
  | str s => simp [processColumnsAux, hl]
  | arr xs => simp [processColumnsAux, hl]
  | obj fs => simp [processColumnsAux, hl]

/-- The pieces of the column loop outcome on success: the coldesc names
extend the accumulator by the ColumnData keys in order, every processed
key is readable in the row, and every processed column has a non-null
types entry. -/
lemma pca_ok_spec (coldata : List (String × GoVal)) :
    ∀ (types : List (String × JVal)) (cds0 : List ColDesc)
      (row0 : List (String × GoVal)) (cds : List ColDesc)
      (row : List (String × GoVal)),
      processColumnsAux types cds0 row0 coldata = PCOut.pok cds row →
      (cds.map ColDesc.name = cds0.map ColDesc.name ++ coldata.map Prod.fst) ∧
      (∀ x : String,
        ((lookupG row0 x).isSome ∨ ∃ v, (x, v) ∈ coldata) →
        (lookupG row x).isSome) ∧
      (∀ p ∈ coldata, ∃ t, lookupJ types p.1 = some t ∧ t ≠ JVal.null) := by
  induction coldata with
  | nil =>
    intro types cds0 row0 cds row h
    simp only [processColumnsAux, PCOut.pok.injEq] at h
    obtain ⟨rfl, rfl⟩ := h
    refine ⟨by simp, ?_, by simp⟩
    intro x hx
    rcases hx with hx | ⟨v, hv⟩
    · exact hx
    · simp at hv
  | cons p rest ih =>
    intro types cds0 row0 cds row h
    obtain ⟨k, v⟩ := p
    cases hl : lookupJ types k with
    | none => rw [pca_cons_none types cds0 row0 k v rest hl] at h; cases h
    | some t =>
      by_cases htn : t = JVal.null
      · subst htn
        rw [pca_cons_null types cds0 row0 k v rest hl] at h
        cases h
      · rw [pca_cons_some types cds0 row0 k v rest t hl htn] at h
        cases hc : coerce k t v with
        | cerr e => rw [hc] at h; cases h
        | crash => rw [hc] at h; cases h
        | cok w =>
          rw [hc] at h
          obtain ⟨hnames, hrow, hschema⟩ :=
            ih types (cds0 ++ [{ name := k, typ := t }]) (setG row0 k w)
              cds row h
          refine ⟨?_, ?_, ?_⟩
          · rw [hnames]; simp
          · intro x hx
            apply hrow
            by_cases hxk : x = k
            · subst hxk
              left
              rw [lookupG_setG_self]
              rfl
            · rcases hx with hx | ⟨v2, hv2⟩
              · left; rw [lookupG_setG_ne row0 x k w hxk]; exact hx
              · rcases List.mem_cons.mp hv2 with h2 | h2
                · exact absurd (congrArg Prod.fst h2) hxk
                · right; exact ⟨v2, h2⟩
          · intro q hq
            rcases List.mem_cons.mp hq with h2 | h2
            · subst h2; exact ⟨t, hl, htn⟩
            · exact hschema q h2

/-- createCacheDir never touches the cache files. -/
lemma createCacheDir_cache (mkdirOk : Bool) (st st1 : SysState)
    (h : createCacheDir mkdirOk st = Except.ok st1) : st1.cache = st.cache := by
  unfold createCacheDir at h
  by_cases hd : st.dirExists
  · simp [hd] at h; rw [← h]
  · by_cases hm : mkdirOk
    · simp [hd, hm] at h; rw [← h]
    · simp [hd, hm] at h

/-- When the cache directory already exists, createCacheDir is the
identity. -/
lemma createCacheDir_id (mkdirOk : Bool) (st : SysState)
    (h : st.dirExists = true) : createCacheDir mkdirOk st = Except.ok st := by
  simp [createCacheDir, h]

/-- A cache hit: getPayloadStructure succeeds without touching the state
or the remote catalog. -/
lemma gps_hit (mkdirOk : Bool) (remote : Except String (List (String × JVal)))
    (st : SysState) (dbpath db table : String) (c : CacheContent)
    (hdir : st.dirExists = true) (hsplit : goSplit dbpath = [db, table])
    (hfile : lookupC st.cache (db ++ "." ++ table ++ ".json") = some c) :
    getPayloadStructure mkdirOk remote st dbpath = (GPSRes.sok, st) := by
  unfold getPayloadStructure
  rw [createCacheDir_id mkdirOk st hdir, hsplit]
  simp [hfile]

/-- On a cache hit, generatePayload reduces to pure payload synthesis from
the cached file, with the state unchanged. -/
lemma generatePayload_cached (mkdirOk : Bool)
    (remote : Except String (List (String × JVal))) (st : SysState)
    (dbpath db table : String) (c : CacheContent)
    (coldata : List (String × GoVal))
    (hdir : st.dirExists = true) (hsplit : goSplit dbpath = [db, table])
    (hfile : lookupC st.cache (db ++ "." ++ table ++ ".json") = some c) :
    generatePayload mkdirOk remote st dbpath coldata =
      (buildRowSet (readCacheTypes st.cache (db ++ "." ++ table ++ ".json"))
        coldata, st) := by
  unfold generatePayload
  rw [gps_hit mkdirOk remote st dbpath db table c hdir hsplit hfile, hsplit]

/-- generatePayload returns exactly the state produced by
getPayloadStructure: the synthesis itself is pure. -/
lemma generatePayload_snd (mkdirOk : Bool)
    (remote : Except String (List (String × JVal))) (st : SysState)
    (dbpath : String) (coldata : List (String × GoVal)) :
    (generatePayload mkdirOk remote st dbpath coldata).2 =
      (getPayloadStructure mkdirOk remote st dbpath).2 := by
  unfold generatePayload
  cases hg : getPayloadStructure mkdirOk remote st dbpath with
  | mk a b =>
    cases a with
    | serr e => rfl
    | scrash => rfl
    | sok =>
      rcases goSplit dbpath with _ | ⟨x, _ | ⟨y, _ | _⟩⟩ <;> rfl

/-- getPayloadStructure preserves every existing cache entry: only an
absent file is ever written, and writing it cannot overwrite another. -/
lemma gps_preserves (mkdirOk : Bool)
    (remote : Except String (List (String × JVal))) (st : SysState)
    (dbpath fname : String) (c : CacheContent)
    (h : lookupC st.cache fname = some c) :
    lookupC ((getPayloadStructure mkdirOk remote st dbpath).2).cache fname =
      some c := by
  unfold getPayloadStructure
  cases hcd : createCacheDir mkdirOk st with
  | error e => simpa using h
  | ok st1 =>
    have hc1 : st1.cache = st.cache := createCacheDir_cache mkdirOk st st1 hcd
    rcases goSplit dbpath with _ | ⟨db, _ | ⟨table, _ | ⟨z, zs⟩⟩⟩
    · simpa [hc1] using h
    · simpa [hc1] using h
    · simp only []
      cases hl : lookupC st1.cache (db ++ "." ++ table ++ ".json") with
      | some c2 => simpa [hl, hc1] using h
      | none =>
        cases remote with
        | error e => simpa [hl, hc1] using h
        | ok body =>
          cases hr : generateRetval body with
          | rvcrash => simpa [hl, hr, hc1] using h
          | rverr e => simpa [hl, hr, hc1] using h
          | rvok res =>
            cases ha : applyCatalogRows body res with
            | none => simpa [hl, hr, ha, hc1] using h
            | some types2 =>
              have hne : fname ≠ db ++ "." ++ table ++ ".json" := by
                intro heq
                rw [heq, ← hc1] at h
                rw [h] at hl
                cases hl
              simp only [hl, hr, ha]
              rw [lookupC_setC_ne st1.cache fname
                (db ++ "." ++ table ++ ".json") (CacheContent.parsed types2)
                hne, hc1]
              exact h
    · simpa [hc1] using h

/-
Claim theorems.
-/

/-- C3 counterexample: a response whose rowset field is not a JSON object
is neither the exception envelope nor a well-formed rowset, yet
generateRetval crashes on the failed type assertion instead of returning
an empty Result without error, refuting the claim that every such shape
degrades to an empty Result. -/
theorem generateRetval_malformed_crash :
    generateRetval [("rowset", JVal.num 5)] = RetOut.rvcrash := rfl

/-- C3 (amended): for every response object carrying neither an exception
field nor a rowset field (malformed or empty responses included),
generateRetval returns an empty Result and no error. -/
theorem generateRetval_other_shape_empty (res : List (String × JVal))
    (hexc : lookupJ res "exception" = none)
    (hrs : lookupJ res "rowset" = none) :
    generateRetval res = RetOut.rvok [] := by
  simp only [generateRetval, hexc, hrs]

/-- C3 witness: the amended theorem evaluated at a concrete response that
carries neither field. -/
theorem generateRetval_other_shape_empty_witness :
    lookupJ [("foo", JVal.num 1)] "exception" = none ∧
    lookupJ [("foo", JVal.num 1)] "rowset" = none ∧
    generateRetval [("foo", JVal.num 1)] = RetOut.rvok [] :=
  ⟨rfl, rfl, generateRetval_other_shape_empty [("foo", JVal.num 1)] rfl rfl⟩

/-- C4 counterexample: a response whose exception field is present but is
not a JSON object makes generateRetval crash on the failed type assertion
instead of failing with a remote error carrying a nested message,
refuting the claim for that response object. -/
theorem generateRetval_exception_nonobject_crash :
    generateRetval [("exception", JVal.num 5)] = RetOut.rvcrash := rfl

/-- C4 (amended): for every response object, if the exception field holds
an object whose message field is a string, generateRetval fails with a
remote error carrying that message; else if the rowset field holds an
object with no rows field, it returns an empty Result with no error; else
if that rows field holds a list, it returns that list as the Result
(encountering either field with any other inner shape crashes instead). -/
theorem generateRetval_envelope_cases :
    (∀ (res fields : List (String × JVal)) (m : String),
      lookupJ res "exception" = some (JVal.obj fields) →
      lookupJ fields "message" = some (JVal.str m) →
      generateRetval res = RetOut.rverr ("OMNIbus: " ++ m)) ∧
    (∀ (res fields : List (String × JVal)),
      lookupJ res "exception" = none →
      lookupJ res "rowset" = some (JVal.obj fields) →
      lookupJ fields "rows" = none →
      generateRetval res = RetOut.rvok []) ∧
    (∀ (res fields : List (String × JVal)) (xs : List JVal),
      lookupJ res "exception" = none →
      lookupJ res "rowset" = some (JVal.obj fields) →
      lookupJ fields "rows" = some (JVal.arr xs) →
      generateRetval res = RetOut.rvok xs) := by
  refine ⟨?_, ?_, ?_⟩
  · intro res fields m h1 h2
    simp only [generateRetval, h1, h2]
  · intro res fields h1 h2 h3
    simp only [generateRetval, h1, h2, h3]
  · intro res fields xs h1 h2 h3
    simp only [generateRetval, h1, h2, h3]

/-- C4 witness: the exception envelope of the spec example fails with the
nested message, and the bare rowset object yields an empty Result. -/
theorem generateRetval_envelope_cases_witness :
    lookupJ [("exception", JVal.obj [("message", JVal.str "bad filter")])]
      "exception" = some (JVal.obj [("message", JVal.str "bad filter")]) ∧
    lookupJ [("message", JVal.str "bad filter")] "message" =
      some (JVal.str "bad filter") ∧
    generateRetval [("exception", JVal.obj [("message", JVal.str "bad filter")])]
      = RetOut.rverr "OMNIbus: bad filter" ∧
    generateRetval [("rowset", JVal.obj [])] = RetOut.rvok [] :=
  ⟨rfl, rfl,
    generateRetval_envelope_cases.1
      [("exception", JVal.obj [("message", JVal.str "bad filter")])]
      [("message", JVal.str "bad filter")] "bad filter" rfl rfl,
    generateRetval_envelope_cases.2.1
      [("rowset", JVal.obj [])] [] rfl rfl rfl⟩

/-- C6: the catalog type-code normalization maps code 1 to the timestamp
tag (the source literal "utc"), codes 2 and 10 to "string", and every
other code, unrecognized ones such as 99 included, to "integer"; the
fetch loop records the tag computed this way for each catalog row. -/
theorem typeCodeTag_spec :
    typeCodeTag 1 = "utc" ∧ typeCodeTag 2 = "string" ∧
    typeCodeTag 10 = "string" ∧
    (∀ c : ℚ, c ≠ 1 → c ≠ 2 → c ≠ 10 → typeCodeTag c = "integer") ∧
    applyCatalogRows []
      [JVal.obj [("ColumnName", JVal.str "X"), ("DataType", JVal.num 99)]] =
      some [("X", JVal.str "integer")] := by
  refine ⟨rfl, rfl, rfl, ?_, rfl⟩
  intro c h1 h2 h10
  simp [typeCodeTag, h1, h2, h10]

/-- C6 witness: the default branch evaluated at the unrecognized code 99. -/
theorem typeCodeTag_spec_witness :
    (99 : ℚ) ≠ 1 ∧ (99 : ℚ) ≠ 2 ∧ (99 : ℚ) ≠ 10 ∧
    typeCodeTag 99 = "integer" :=
  ⟨by decide, by decide, by decide,
    typeCodeTag_spec.2.2.2.1 99 (by decide) (by decide) (by decide)⟩

/-- C7: whenever the table path does not split on the slash into exactly
two segments, generatePayload fails with the path-format error (given
that the cache directory is in place, which the source checks first). -/
theorem generatePayload_path_format (mkdirOk : Bool)
    (remote : Except String (List (String × JVal))) (st : SysState)
    (dbpath : String) (coldata : List (String × GoVal))
    (hdir : st.dirExists = true)
    (hsplit : (goSplit dbpath).length ≠ 2) :
    generatePayload mkdirOk remote st dbpath coldata =
      (GPRes.rerr "DBPath is not a path: Format db/table", st) := by
  unfold generatePayload getPayloadStructure
  rw [createCacheDir_id mkdirOk st hdir]
  rcases hs : goSplit dbpath with _ | ⟨x, _ | ⟨y, _ | _⟩⟩
  · rfl
  · rfl
  · rw [hs] at hsplit; simp at hsplit
  · rfl

/-- C7 witness: the path-format failure evaluated at the one-segment path
"alerts". -/
theorem generatePayload_path_format_witness :
    SysState.dirExists { dirExists := true, cache := [] } = true ∧
    (goSplit "alerts").length ≠ 2 ∧
    generatePayload true (Except.ok []) { dirExists := true, cache := [] }
      "alerts" [] =
      (GPRes.rerr "DBPath is not a path: Format db/table",
        { dirExists := true, cache := [] }) :=
  ⟨rfl, by decide,
    generatePayload_path_format true (Except.ok [])
      { dirExists := true, cache := [] } "alerts" [] rfl (by decide)⟩

/-- C1: for a column whose declared schema type is the integer or
timestamp tag ("integer" or the source literal "utc"), the value coercion
of generatePayload parses a string value as a base-10 integer (and fails
with a conversion error naming the value and the declared type when it
does not parse), passes an int64 or int value through unchanged,
truncates a float64 value toward zero (3.9 yields 3), and rejects any
other reflect shape with a type-mismatch error naming the column and the
observed shape. -/
theorem generatePayload_integer_coercion (types : List (String × JVal))
    (k tag : String) (hk : lookupJ types k = some (JVal.str tag))
    (htag : tag = "integer" ∨ tag = "utc") :
    (∀ (s : String) (n : Int), goAtoi s = some n →
      processColumns types [(k, GoVal.str s)] =
        PCOut.pok [{ name := k, typ := JVal.str tag }] [(k, GoVal.int n)]) ∧
    (∀ s : String, goAtoi s = none →
      processColumns types [(k, GoVal.str s)] =
        PCOut.perr ("Couldn\x27t convert column value to integer: " ++ s ++
          " (" ++ tag ++ ")")) ∧
    (∀ n : Int, processColumns types [(k, GoVal.int64 n)] =
      PCOut.pok [{ name := k, typ := JVal.str tag }] [(k, GoVal.int64 n)]) ∧
    (∀ n : Int, processColumns types [(k, GoVal.int n)] =
      PCOut.pok [{ name := k, typ := JVal.str tag }] [(k, GoVal.int n)]) ∧
    (∀ q : ℚ, processColumns types [(k, GoVal.float64 q)] =
      PCOut.pok [{ name := k, typ := JVal.str tag }]
        [(k, GoVal.int (truncRat q))]) ∧
    truncRat (mkRat 39 10) = 3 ∧
    (∀ tn : String, processColumns types [(k, GoVal.other tn)] =
      PCOut.perr ("Couldn\x27t convert given parameter: " ++ k ++
        " which is of type " ++ tn)) := by
  have hcond : (tag = "integer" ∨ tag = "utc") = True := by
    simp [htag]
  refine ⟨?_, ?_, ?_, ?_, ?_, by decide, ?_⟩
  · intro s n hs
    simp [processColumns, processColumnsAux, hk, coerce, hcond, hs, setG]
  · intro s hs
    simp [processColumns, processColumnsAux, hk, coerce, hcond, hs]
  · intro n
    simp [processColumns, processColumnsAux, hk, coerce, hcond, setG]
  · intro n
    simp [processColumns, processColumnsAux, hk, coerce, hcond, setG]
  · intro q
    simp [processColumns, processColumnsAux, hk, coerce, hcond, setG]
  · intro tn
    simp [processColumns, processColumnsAux, hk, coerce, hcond]

/-- C1 witness: the coercion rules evaluated for a concrete integer
column, at a parsing string value. -/
theorem generatePayload_integer_coercion_witness :
    lookupJ [("Severity", JVal.str "integer")] "Severity" =
      some (JVal.str "integer") ∧
    goAtoi "4" = some 4 ∧
    processColumns [("Severity", JVal.str "integer")]
      [("Severity", GoVal.str "4")] =
      PCOut.pok [{ name := "Severity", typ := JVal.str "integer" }]
        [("Severity", GoVal.int 4)] :=
  ⟨rfl, rfl,
    (generatePayload_integer_coercion [("Severity", JVal.str "integer")]
      "Severity" "integer" rfl (Or.inl rfl)).1 "4" 4 rfl⟩

/-- C5: payload synthesis succeeds only when every column of the request
has a (non-null) entry in the cached schema; the loop fails with an error
naming the column whenever it reaches a column absent from the schema,
and through the whole generatePayload pipeline a write request whose
first column is absent from the cached schema fails with exactly that
error. -/
theorem generatePayload_unknown_column :
    (∀ (types : List (String × JVal)) (coldata : List (String × GoVal))
      (cds : List ColDesc) (row : List (String × GoVal)),
      processColumns types coldata = PCOut.pok cds row →
      ∀ p ∈ coldata, ∃ t, lookupJ types p.1 = some t ∧ t ≠ JVal.null) ∧
    (∀ (types : List (String × JVal)) (k : String) (v : GoVal)
      (rest : List (String × GoVal)), lookupJ types k = none →
      processColumns types ((k, v) :: rest) =
        PCOut.perr ("Column not found: " ++ k)) ∧
    (∀ (mkdirOk : Bool) (remote : Except String (List (String × JVal)))
      (st : SysState) (dbpath db table : String)
      (types : List (String × JVal)) (k : String) (v : GoVal)
      (rest : List (String × GoVal)),
      st.dirExists = true → goSplit dbpath = [db, table] →
      lookupC st.cache (db ++ "." ++ table ++ ".json") =
        some (CacheContent.parsed types) →
      lookupJ types k = none →
      generatePayload mkdirOk remote st dbpath ((k, v) :: rest) =
        (GPRes.rerr ("Column not found: " ++ k), st)) := by
  refine ⟨?_, ?_, ?_⟩
  · intro types coldata cds row h
    exact (pca_ok_spec coldata types [] [] cds row h).2.2
  · intro types k v rest hl
    exact pca_cons_none types [] [] k v rest hl
  · intro mkdirOk remote st dbpath db table types k v rest hdir hsplit hfile hl
    rw [generatePayload_cached mkdirOk remote st dbpath db table
      (CacheContent.parsed types) ((k, v) :: rest) hdir hsplit hfile]
    have hread : readCacheTypes st.cache (db ++ "." ++ table ++ ".json") =
        types := by
      simp [readCacheTypes, hfile]
    rw [hread]
    simp [buildRowSet, processColumns, pca_cons_none types [] [] k v rest hl]

/-- C5 witness: the unknown-column rejection evaluated at a concrete
schema and a column absent from it. -/
theorem generatePayload_unknown_column_witness :
    lookupJ [("Severity", JVal.str "integer")] "Node" = none ∧
    processColumns [("Severity", JVal.str "integer")]
      [("Node", GoVal.str "x")] = PCOut.perr "Column not found: Node" :=
  ⟨rfl,
    generatePayload_unknown_column.2.1 [("Severity", JVal.str "integer")]
      "Node" (GoVal.str "x") [] rfl⟩

/-- C10: a nil ColumnData value for a column whose declared type is
"integer" or "utc" makes the runtime type inspection crash: the column
loop ends in the crash outcome, and through the whole generatePayload
pipeline the result is the crash outcome, not an error value. -/
theorem generatePayload_nil_value_crash :
    (∀ (types : List (String × JVal)) (k tag : String)
      (rest : List (String × GoVal)),
      lookupJ types k = some (JVal.str tag) →
      (tag = "integer" ∨ tag = "utc") →
      processColumns types ((k, GoVal.nil) :: rest) = PCOut.pcrash) ∧
    (∀ (mkdirOk : Bool) (remote : Except String (List (String × JVal)))
      (st : SysState) (dbpath db table : String)
      (types : List (String × JVal)) (k tag : String)
      (rest : List (String × GoVal)),
      st.dirExists = true → goSplit dbpath = [db, table] →
      lookupC st.cache (db ++ "." ++ table ++ ".json") =
        some (CacheContent.parsed types) →
      lookupJ types k = some (JVal.str tag) →
      (tag = "integer" ∨ tag = "utc") →
      generatePayload mkdirOk remote st dbpath ((k, GoVal.nil) :: rest) =
        (GPRes.rcrash, st)) := by
  have hloop : ∀ (types : List (String × JVal)) (k tag : String)
      (rest : List (String × GoVal)),
      lookupJ types k = some (JVal.str tag) →
      (tag = "integer" ∨ tag = "utc") →
      processColumns types ((k, GoVal.nil) :: rest) = PCOut.pcrash := by
    intro types k tag rest hk htag
    have hcond : (tag = "integer" ∨ tag = "utc") = True := by simp [htag]
    simp [processColumns, processColumnsAux, hk, coerce, hcond]
  refine ⟨hloop, ?_⟩
  intro mkdirOk remote st dbpath db table types k tag rest hdir hsplit hfile
    hk htag
  rw [generatePayload_cached mkdirOk remote st dbpath db table
    (CacheContent.parsed types) ((k, GoVal.nil) :: rest) hdir hsplit hfile]
  have hread : readCacheTypes st.cache (db ++ "." ++ table ++ ".json") =
      types := by
    simp [readCacheTypes, hfile]
  rw [hread]
  simp [buildRowSet, hloop types k tag rest hk htag]

/-- C10 witness: the crash evaluated at a concrete timestamp column bound
to a nil value. -/
theorem generatePayload_nil_value_crash_witness :
    lookupJ [("FirstOccurrence", JVal.str "utc")] "FirstOccurrence" =
      some (JVal.str "utc") ∧
    processColumns [("FirstOccurrence", JVal.str "utc")]
      [("FirstOccurrence", GoVal.nil)] = PCOut.pcrash :=
  ⟨rfl,
    generatePayload_nil_value_crash.1 [("FirstOccurrence", JVal.str "utc")]
      "FirstOccurrence" "utc" [] rfl (Or.inr rfl)⟩

/-- C8: a column declared "string" passes any value (empty string
included) through with no coercion, and every successful Insert/Update
synthesis yields exactly one ColumnDescriptor per requested column (in
request order) and exactly one row in which every requested column is
readable; the end-to-end Severity/Summary example of the spec is
reproduced exactly. -/
theorem generatePayload_string_passthrough_rowset :
    (∀ (k : String) (v : GoVal),
      coerce k (JVal.str "string") v = CoerceOut.cok v) ∧
    (∀ (types : List (String × JVal)) (coldata : List (String × GoVal))
      (rs : RowSet), buildRowSet types coldata = GPRes.rok rs →
      ∃ row, rs.rows = [row] ∧
        rs.coldesc.map ColDesc.name = coldata.map Prod.fst ∧
        rs.coldesc.length = coldata.length ∧
        ∀ p ∈ coldata, (lookupG row p.1).isSome) ∧
    buildRowSet
      [("Severity", JVal.str "integer"), ("Summary", JVal.str "string")]
      [("Severity", GoVal.int 4), ("Summary", GoVal.str "test")] =
      GPRes.rok
        { coldesc := [{ name := "Severity", typ := JVal.str "integer" },
                      { name := "Summary", typ := JVal.str "string" }],
          rows := [[("Severity", GoVal.int 4),
                    ("Summary", GoVal.str "test")]] } := by
  refine ⟨fun k v => rfl, ?_, rfl⟩
  intro types coldata rs h
  unfold buildRowSet at h
  cases hp : processColumns types coldata with
  | perr e => rw [hp] at h; cases h
  | pcrash => rw [hp] at h; cases h
  | pok cds row =>
    rw [hp] at h
    cases h
    obtain ⟨hnames, hrow, _⟩ := pca_ok_spec coldata types [] [] cds row hp
    refine ⟨row, rfl, ?_, ?_, ?_⟩
    · simpa using hnames
    · have := congrArg List.length hnames
      simpa using this
    · intro p hp2
      apply hrow p.1
      right
      exact ⟨p.2, by simpa using hp2⟩

/-- C8 witness: string passthrough evaluated at the empty string. -/
theorem generatePayload_string_passthrough_rowset_witness :
    coerce "Summary" (JVal.str "string") (GoVal.str "") =
      CoerceOut.cok (GoVal.str "") :=
  generatePayload_string_passthrough_rowset.1 "Summary" (GoVal.str "")

/-- C9: an existing schema cache entry is never refetched, overwritten or
invalidated: on a hit, getPayloadStructure returns success with the state
untouched whatever the remote catalog would answer, generatePayload
leaves the state untouched, and any generatePayload call for any table
preserves every existing cache entry exactly. -/
theorem schema_cache_immutable :
    (∀ (mkdirOk : Bool) (remote : Except String (List (String × JVal)))
      (st : SysState) (dbpath db table : String) (c : CacheContent)
      (coldata : List (String × GoVal)),
      st.dirExists = true → goSplit dbpath = [db, table] →
      lookupC st.cache (db ++ "." ++ table ++ ".json") = some c →
      getPayloadStructure mkdirOk remote st dbpath = (GPSRes.sok, st) ∧
      (generatePayload mkdirOk remote st dbpath coldata).2 = st) ∧
    (∀ (mkdirOk : Bool) (remote : Except String (List (String × JVal)))
      (st : SysState) (dbpath fname : String) (c : CacheContent)
      (coldata : List (String × GoVal)),
      lookupC st.cache fname = some c →
      lookupC ((generatePayload mkdirOk remote st dbpath coldata).2).cache
        fname = some c) := by
  constructor
  · intro mkdirOk remote st dbpath db table c coldata hdir hsplit hfile
    refine ⟨gps_hit mkdirOk remote st dbpath db table c hdir hsplit hfile, ?_⟩
    rw [generatePayload_cached mkdirOk remote st dbpath db table c coldata
      hdir hsplit hfile]
  · intro mkdirOk remote st dbpath fname c coldata h
    rw [generatePayload_snd mkdirOk remote st dbpath coldata]
    exact gps_preserves mkdirOk remote st dbpath fname c h

/-- C9 witness: the hit path evaluated at a concrete state already holding
the cache entry for alerts/status. -/
theorem schema_cache_immutable_witness :
    SysState.dirExists
      { dirExists := true,
        cache := [("alerts.status.json", CacheContent.parsed [])] } = true ∧
    goSplit "alerts/status" = ["alerts", "status"] ∧
    lookupC [("alerts.status.json", CacheContent.parsed [])]
      ("alerts" ++ "." ++ "status" ++ ".json") =
      some (CacheContent.parsed []) ∧
    getPayloadStructure true (Except.ok [])
      { dirExists := true,
        cache := [("alerts.status.json", CacheContent.parsed [])] }
      "alerts/status" =
      (GPSRes.sok,
        { dirExists := true,
          cache := [("alerts.status.json", CacheContent.parsed [])] }) :=
  ⟨rfl, rfl, rfl,
    (schema_cache_immutable.1 true (Except.ok [])
      { dirExists := true,
        cache := [("alerts.status.json", CacheContent.parsed [])] }
      "alerts/status" "alerts" "status" (CacheContent.parsed []) []
      rfl rfl rfl).1⟩

/-- C2 counterexample: with an existing but unreadable cache file for
alerts/status and a remote catalog answer that would yield a schema
containing Severity, generatePayload does not behave as if the entry
were absent: it performs no re-fetch (the state is unchanged) and fails
with a Column-not-found error, while the identical call with the file
absent re-fetches and succeeds. -/
theorem corrupt_cache_counterexample :
    generatePayload true
      (Except.ok [("rowset", JVal.obj [("rows", JVal.arr
        [JVal.obj [("ColumnName", JVal.str "Severity"),
          ("DataType", JVal.num 8)]])])])
      { dirExists := true,
        cache := [("alerts.status.json", CacheContent.unreadable)] }
      "alerts/status" [("Severity", GoVal.int 4)] =
      (GPRes.rerr "Column not found: Severity",
        { dirExists := true,
          cache := [("alerts.status.json", CacheContent.unreadable)] }) ∧
    generatePayload true
      (Except.ok [("rowset", JVal.obj [("rows", JVal.arr
        [JVal.obj [("ColumnName", JVal.str "Severity"),
          ("DataType", JVal.num 8)]])])])
      { dirExists := true, cache := [] }
      "alerts/status" [("Severity", GoVal.int 4)] =
      (GPRes.rok { coldesc := [{ name := "Severity",
                                 typ := JVal.str "integer" }],
                   rows := [[("Severity", GoVal.int 4)]] },
        { dirExists := true,
          cache := [("alerts.status.json", CacheContent.parsed
            [("rowset", JVal.obj [("rows", JVal.arr
              [JVal.obj [("ColumnName", JVal.str "Severity"),
                ("DataType", JVal.num 8)]])]),
             ("Severity", JVal.str "integer")])] }) :=
  ⟨rfl, rfl⟩

/-- C2 (amended): when the schema cache file for a table exists but
reading or parsing it fails, the lookup does not behave as if the entry
were absent: mere existence counts as a hit, no re-fetch happens (the
state is unchanged whatever the remote would answer), and payload
synthesis proceeds against the empty schema, so it fails with a
Column-not-found error naming the first requested column whenever any
column is requested. -/
theorem corrupt_cache_no_refetch (mkdirOk : Bool)
    (remote : Except String (List (String × JVal))) (st : SysState)
    (dbpath db table : String) (coldata : List (String × GoVal))
    (hdir : st.dirExists = true) (hsplit : goSplit dbpath = [db, table])
    (hfile : lookupC st.cache (db ++ "." ++ table ++ ".json") =
      some CacheContent.unreadable) :
    generatePayload mkdirOk remote st dbpath coldata =
      (buildRowSet [] coldata, st) ∧
    (∀ (k : String) (v : GoVal) (rest : List (String × GoVal)),
      coldata = (k, v) :: rest →
      generatePayload mkdirOk remote st dbpath coldata =
        (GPRes.rerr ("Column not found: " ++ k), st)) := by
  have hmain : generatePayload mkdirOk remote st dbpath coldata =
      (buildRowSet [] coldata, st) := by
    rw [generatePayload_cached mkdirOk remote st dbpath db table
      CacheContent.unreadable coldata hdir hsplit hfile]
    have hread : readCacheTypes st.cache (db ++ "." ++ table ++ ".json") =
        [] := by
      simp [readCacheTypes, hfile]
    rw [hread]
  refine ⟨hmain, ?_⟩
  intro k v rest hcd
  subst hcd
  rw [hmain]
  simp [buildRowSet, processColumns, pca_cons_none [] [] [] k v rest rfl]

/-- C2 witness: the amended behavior evaluated at a concrete corrupt cache
file. -/
theorem corrupt_cache_no_refetch_witness :
    SysState.dirExists
      { dirExists := true,
        cache := [("alerts.status.json", CacheContent.unreadable)] } = true ∧
    goSplit "alerts/status" = ["alerts", "status"] ∧
    generatePayload false (Except.error "unused")
      { dirExists := true,
        cache := [("alerts.status.json", CacheContent.unreadable)] }
      "alerts/status" [("Summary", GoVal.str "x")] =
      (GPRes.rerr "Column not found: Summary",
        { dirExists := true,
          cache := [("alerts.status.json", CacheContent.unreadable)] }) :=
  ⟨rfl, rfl,
    (corrupt_cache_no_refetch false (Except.error "unused")
      { dirExists := true,
        cache := [("alerts.status.json", CacheContent.unreadable)] }
      "alerts/status" "alerts" "status" [("Summary", GoVal.str "x")]
      rfl rfl rfl).2 "Summary" (GoVal.str "x") [] rfl⟩

end OmniInterface
